import Mathlib

/-!
Verification of the wizard UI layout module
(`awscli/customizations/wizard/ui/layout.py`).

The module compiles a declarative wizard plan definition into a screen:
section tabs, section bodies, a details panel with a hint toolbar, and a
run-wizard (completion) dialog built from the terminal "done" section.
We embed the construction functions and the per-frame visibility and
focus-navigation logic, and prove the specified properties about them.
-/

set_option linter.unusedVariables false

/-- Traversal engine state. Modelled from the spec: the traversal engine is
an external collaborator exposing `has_no_remaining_prompts()` and a
move-to-previous-prompt operation; we model it as a count of prompts and a
current position, all prompts answered when the position has passed the
last prompt. -/
structure Traverser where
  num_prompts : Nat
  current_prompt : Nat
deriving Repr, DecidableEq

/-- Modelled from the spec: `hasNoRemainingPrompts() -> bool`, true exactly
when every required input has been supplied. -/
def Traverser.has_no_remaining_prompts (t : Traverser) : Bool :=
  decide (t.num_prompts ≤ t.current_prompt)

/-- Modelled from the spec: `move_to_previous_prompt` (from
`awscli.customizations.wizard.ui.utils`, not part of this file) rewinds the
traversal engine to the previous prompt and is no-op-safe at the start. -/
def move_to_previous_prompt (t : Traverser) : Traverser :=
  if t.current_prompt = 0 then t
  else { t with current_prompt := t.current_prompt - 1 }

/-- Host application state visible to this module through `get_app()`:
the traversal engine, the dynamic `details_title` attribute (none when the
attribute is unset), and the exit/result channel. -/
structure AppState where
  traverser : Traverser
  details_title : Option String
  exit_result : Option Nat
deriving Repr, DecidableEq

/-- The two built-in button handlers of `RunWizardDialogButtonFactory`. -/
inductive Handler where
  | yesHandler
  | backHandler
deriving Repr, DecidableEq

/-- Effect of invoking a handler on the application state:
`yes_handler` calls `get_app().exit(result=0)`;
`back_handler` calls `move_to_previous_prompt(get_app())`. -/
def Handler.run : Handler → AppState → AppState
  | .yesHandler, app => { app with exit_result := some 0 }
  | .backHandler, app => { app with traverser := move_to_previous_prompt app.traverser }

/-- A dialog button: visible label plus handler
(`_create_dialog_button` also hides the cursor, a purely visual step). -/
structure Button where
  text : String
  handler : Handler
deriving Repr, DecidableEq

/-- Errors raised inside `RunWizardDialogButtonFactory.create_button`.
`unknownActionKind` is the `AttributeError` from
`getattr(self, f_create_name_button)` when the class has no such
attribute (the `UnknownActionKind` error of the spec). `typeError` is the
`TypeError` raised when the lookup does resolve an attribute but the call
omits required positional arguments: this happens for the name "dialog",
because the class defines the `_create_dialog_button` helper whose
mandatory `text` and `handler` parameters are never both supplied by
`create_button`. -/
inductive ButtonError where
  | unknownActionKind (name : String)
  | typeError (name : String)
deriving Repr, DecidableEq

/-- Whether a button factory error is the unknown-action error. -/
def ButtonError.isUnknownActionKind : ButtonError → Bool
  | .unknownActionKind _ => true
  | .typeError _ => false

/-- Embedding of `RunWizardDialogButtonFactory._create_yes_button`. -/
def RunWizardDialogButtonFactory.create_yes_button (text : String) : Button :=
  { text := text, handler := .yesHandler }

/-- Embedding of `RunWizardDialogButtonFactory._create_back_button`. -/
def RunWizardDialogButtonFactory.create_back_button (text : String) : Button :=
  { text := text, handler := .backHandler }

/-- Embedding of `RunWizardDialogButtonFactory.create_button`:
`button_kwargs` receives `text` only when `text` is truthy (so a missing or
empty-string text falls back to the builder default, "Yes" or "Back"),
then the call dispatches through `getattr(self, f_create_name_button)`.
The lookup resolves an attribute for exactly three names: "yes" and
"back" hit the action builders, while "dialog" hits the
`_create_dialog_button` helper, whose call then raises `TypeError`
because the mandatory `handler` argument (and `text`, unless supplied) is
missing. Every other name makes `getattr` raise `AttributeError`, the
unknown-action failure. -/
def RunWizardDialogButtonFactory.create_button (button_name : String)
    (text : Option String) : Except ButtonError Button :=
  let text_kwarg : Option String :=
    match text with
    | some s => if s = "" then none else some s
    | none => none
  if button_name = "yes" then
    .ok (RunWizardDialogButtonFactory.create_yes_button (text_kwarg.getD "Yes"))
  else if button_name = "back" then
    .ok (RunWizardDialogButtonFactory.create_back_button (text_kwarg.getD "Back"))
  else if button_name = "dialog" then
    .error (.typeError button_name)
  else
    .error (.unknownActionKind button_name)

/-- An entry of a done-section `options` sequence: either a bare action
name (a string) or a dict with a `name` and an optional `description`. -/
inductive OptionEntry where
  | name (s : String)
  | obj (name : String) (description : Option String)
deriving Repr, DecidableEq

/-- The action name an options entry refers to (the bare string, or the
`name` field of a dict entry). -/
def OptionEntry.button_name : OptionEntry → String
  | .name s => s
  | .obj n _ => n

/-- A section definition dict, restricted to the keys this module reads:
`description` and `options` (read for the terminal section dialog) and
`shortname` (read for the terminal section tab). A field is `none` when the
key is absent from the dict. -/
structure SectionDef where
  description : Option String := none
  options : Option (List OptionEntry) := none
  shortname : Option String := none
deriving Repr, DecidableEq

/-- Python truthiness of the section definition dict: an empty dict is
falsy, a dict with at least one key is truthy. -/
def SectionDef.isTruthy (d : SectionDef) : Bool :=
  d.description.isSome || d.options.isSome || d.shortname.isSome

/-- Errors at `RunWizardDialog` construction: a button factory failure, or
the `IndexError` raised by `_create_buttons_key_bindings` indexing
`buttons[0]` when the buttons list is empty. -/
inductive DialogError where
  | buttonError (e : ButtonError)
  | emptyButtons
deriving Repr, DecidableEq

/-- The completion dialog data fixed at construction: resolved title and
ordered buttons list. -/
structure RunWizardDialog where
  title : String
  buttons : List Button
deriving Repr, DecidableEq

/-- Embedding of `RunWizardDialog._DEFAULT_BUTTONS`. -/
def RunWizardDialog.DEFAULT_BUTTONS : List String := ["yes", "back"]

/-- The loop of `RunWizardDialog._create_default_buttons`: create one
button per listed name, in order, propagating the first factory failure. -/
def RunWizardDialog.create_default_buttons_loop :
    List String → Except ButtonError (List Button)
  | [] => .ok []
  | n :: rest =>
    match RunWizardDialogButtonFactory.create_button n none with
    | .error e => .error e
    | .ok b =>
      match RunWizardDialog.create_default_buttons_loop rest with
      | .error e => .error e
      | .ok bs => .ok (b :: bs)

/-- Embedding of `RunWizardDialog._create_default_buttons`. -/
def RunWizardDialog.create_default_buttons : Except ButtonError (List Button) :=
  RunWizardDialog.create_default_buttons_loop RunWizardDialog.DEFAULT_BUTTONS

/-- Embedding of `RunWizardDialog.__init__`: the title defaults to
"Run wizard?" when the keyword is not supplied, the buttons default to the
default buttons when the keyword is not supplied, and building the
container (which synthesizes the buttons key bindings) indexes
`buttons[0]`, so an empty buttons list fails construction. -/
def RunWizardDialog.init (title : Option String)
    (buttons : Option (List Button)) : Except DialogError RunWizardDialog :=
  let t := title.getD "Run wizard?"
  match buttons with
  | none =>
    match RunWizardDialog.create_default_buttons with
    | .error e => .error (.buttonError e)
    | .ok bs =>
      if bs.isEmpty then .error .emptyButtons else .ok { title := t, buttons := bs }
  | some bs =>
    if bs.isEmpty then .error .emptyButtons else .ok { title := t, buttons := bs }

/-- The loop body of `RunWizardDialog.from_done_section_definition`: a bare
string entry is passed as the button name with no text; a dict entry passes
its `name` field as the button name and its `description` field (possibly
absent) as the text. -/
def optionToButton : OptionEntry → Except ButtonError Button
  | .name s => RunWizardDialogButtonFactory.create_button s none
  | .obj n d => RunWizardDialogButtonFactory.create_button n d

/-- The options loop of `RunWizardDialog.from_done_section_definition`:
one button per options entry, in order, propagating the first failure. -/
def buildButtons : List OptionEntry → Except ButtonError (List Button)
  | [] => .ok []
  | o :: rest =>
    match optionToButton o with
    | .error e => .error e
    | .ok b =>
      match buildButtons rest with
      | .error e => .error e
      | .ok bs => .ok (b :: bs)

/-- Embedding of `RunWizardDialog.from_done_section_definition`. The
argument is `none` when the done section definition is Python `None`.
A falsy definition contributes no keyword arguments; otherwise a present
`description` key becomes the title keyword and a present `options` key is
mapped through the button factory into the buttons keyword. -/
def from_done_section_definition :
    Option SectionDef → Except DialogError RunWizardDialog
  | none => RunWizardDialog.init none none
  | some dd =>
    if dd.isTruthy then
      match dd.options with
      | none => RunWizardDialog.init dd.description none
      | some opts =>
        match buildButtons opts with
        | .error e => .error (.buttonError e)
        | .ok bs => RunWizardDialog.init dd.description (some bs)
    else RunWizardDialog.init none none

/-- A conditional container: content together with a visibility filter that
the renderer re-evaluates against the live application state on every
frame. -/
structure ConditionalContainer (α : Type) where
  content : α
  filter : AppState → Bool

/-- Embedding of `RunWizardDialog._is_visible`: reads
`get_app().traverser.has_no_remaining_prompts()`; no field of the dialog
itself is consulted. -/
def RunWizardDialog.is_visible (dlg : RunWizardDialog) (app : AppState) : Bool :=
  app.traverser.has_no_remaining_prompts

/-- Embedding of `RunWizardDialog._get_container`: wraps the dialog body in
a `ConditionalContainer` whose condition is `_is_visible`. -/
def RunWizardDialog.get_container (dlg : RunWizardDialog) :
    ConditionalContainer RunWizardDialog :=
  { content := dlg, filter := dlg.is_visible }

/-- Visibility of a conditional container at a render frame: the filter
evaluated against the application state of that frame. -/
def ConditionalContainer.visibleAtFrame {α : Type}
    (c : ConditionalContainer α) (app : AppState) : Bool :=
  c.filter app

/-- Embedding of `WizardDetailsPanel._get_title`:
`getattr(get_app(), details_title, empty) or "Details panel"`, so both an
unset attribute and a falsy (empty-string) attribute fall back to
"Details panel". -/
def WizardDetailsPanel.get_title (app : AppState) : String :=
  let t := app.details_title.getD ""
  if t = "" then "Details panel" else t

/-- The title used by `DetailPanelToolbarView.help_text`:
`getattr(app, details_title, "Details panel")`, falling back only when the
attribute is unset. -/
def DetailPanelToolbarView.help_title (app : AppState) : String :=
  app.details_title.getD "Details panel"

/-- Embedding of `DetailPanelToolbarView.help_text` with the style markup
elided: the two fixed key hints, both parameterized by the same dynamic
title. -/
def DetailPanelToolbarView.help_text (app : AppState) : String :=
  "[F2] Switch to " ++ DetailPanelToolbarView.help_title app ++
    " [F3] Show/Hide " ++ DetailPanelToolbarView.help_title app

/-- Modelled from the spec: `core.DONE_SECTION_NAME`, the reserved key of
the terminal section in the plan mapping (from
`awscli.customizations.wizard.core`, not part of this file); an opaque
distinguished string. -/
def DONE_SECTION_NAME : String := "__DONE__"

/-- A section tab as constructed by this module: the external
`WizardSectionTab` widget receives a section name and the definition dict
chosen for it. -/
structure WizardSectionTab where
  name : String
  definition : SectionDef
deriving Repr, DecidableEq

/-- Embedding of `WizardLayoutFactory._create_done_section_tab`: when the
definition is falsy or lacks the `shortname` key, the whole definition is
replaced by the one-key dict with `shortname` set to "Done". -/
def create_done_section_tab (d : SectionDef) : WizardSectionTab :=
  if !d.isTruthy || d.shortname.isNone then
    { name := DONE_SECTION_NAME, definition := { shortname := some "Done" } }
  else
    { name := DONE_SECTION_NAME, definition := d }

/-- An element of the tab column built by
`WizardLayoutFactory._create_sections`: a section tab or the trailing
`Spacer` filler. -/
inductive TabItem where
  | sectionTab (t : WizardSectionTab)
  | spacer
deriving Repr, DecidableEq

/-- An element of the body column built by
`WizardLayoutFactory._create_sections`: the run-wizard dialog (for the done
section), an ordinary section body, the details panel, or the detail panel
toolbar. -/
inductive BodyItem where
  | dialog (d : RunWizardDialog)
  | sectionBody (name : String) (d : SectionDef)
  | detailsPanel
  | detailToolbar
deriving Repr, DecidableEq

/-- One iteration of the section loop in
`WizardLayoutFactory._create_sections`: the done section appends its
special tab and the pre-built dialog as its body; every other section
appends an ordinary tab and body built from its name and definition. -/
def create_sections_step (run_wizard_dialog : RunWizardDialog)
    (acc : List TabItem × List BodyItem) (s : String × SectionDef) :
    List TabItem × List BodyItem :=
  if s.1 = DONE_SECTION_NAME then
    (acc.1 ++ [TabItem.sectionTab (create_done_section_tab s.2)],
     acc.2 ++ [BodyItem.dialog run_wizard_dialog])
  else
    (acc.1 ++ [TabItem.sectionTab { name := s.1, definition := s.2 }],
     acc.2 ++ [BodyItem.sectionBody s.1 s.2])

/-- Embedding of `WizardLayoutFactory._create_sections`: loop over the plan
mapping in order, then append the `Spacer` to the tab column and the
details panel followed by the toolbar to the body column. -/
def create_sections (plan : List (String × SectionDef))
    (run_wizard_dialog : RunWizardDialog) : List TabItem × List BodyItem :=
  let acc := plan.foldl (create_sections_step run_wizard_dialog) ([], [])
  (acc.1 ++ [TabItem.spacer],
   acc.2 ++ [BodyItem.detailsPanel, BodyItem.detailToolbar])

/-- The keys bound by `RunWizardDialog._create_buttons_key_bindings`. -/
inductive Key where
  | left
  | right
  | tab
  | backTab
deriving Repr, DecidableEq

/-- Modelled from the spec: `focus_next` (from prompt_toolkit, not part of
this file) advances focus cyclically through the k focus targets, wrapping
from the last to the first. -/
def focus_next (k p : Nat) : Nat := (p + 1) % k

/-- Modelled from the spec: `focus_previous` (from prompt_toolkit, not part
of this file) retreats focus cyclically, wrapping from the first to the
last. -/
def focus_previous (k p : Nat) : Nat := if p = 0 then k - 1 else p - 1

/-- Embedding of `RunWizardDialog._create_buttons_key_bindings` as the
focus transition it induces: focus position `p` among the dialog buttons,
with Left guarded by not-first-selected, Right guarded by
not-last-selected, and Tab and BackTab unguarded; a key whose filter is
false leaves focus unchanged. -/
def create_buttons_key_bindings (buttons : List Button) (p : Nat) :
    Key → Nat
  | .left => if p = 0 then p else focus_previous buttons.length p
  | .right => if p = buttons.length - 1 then p else focus_next buttons.length p
  | .tab => focus_next buttons.length p
  | .backTab => focus_previous buttons.length p

/-- Whether an action name has a registered action builder on the button
factory: only `_create_yes_button` and `_create_back_button` build
actions. The name "dialog" is not registered even though the reflective
`_create_{name}_button` lookup resolves the `_create_dialog_button`
helper for it: calling that helper without its mandatory arguments raises
`TypeError`, so no action is ever built for it (a different failure from
the unknown-action `AttributeError` of every other unregistered name). -/
def registered_action (n : String) : Bool :=
  n == "yes" || n == "back"

/-- Expected tab for a plan section, as `_create_sections` builds it. -/
def tabOf (s : String × SectionDef) : TabItem :=
  if s.1 = DONE_SECTION_NAME then TabItem.sectionTab (create_done_section_tab s.2)
  else TabItem.sectionTab { name := s.1, definition := s.2 }

/-- Expected body for a plan section, as `_create_sections` builds it. -/
def bodyOf (dlg : RunWizardDialog) (s : String × SectionDef) : BodyItem :=
  if s.1 = DONE_SECTION_NAME then BodyItem.dialog dlg
  else BodyItem.sectionBody s.1 s.2

/-- The default buttons evaluate to the yes and back buttons with their
built-in labels. -/
lemma create_default_buttons_eval :
    RunWizardDialog.create_default_buttons =
      .ok [{ text := "Yes", handler := .yesHandler },
           { text := "Back", handler := .backHandler }] := rfl

/-- Characterization of a successful `RunWizardDialog.__init__`. -/
lemma init_ok_spec (topt : Option String) (bopt : Option (List Button))
    (dlg : RunWizardDialog) (h : RunWizardDialog.init topt bopt = .ok dlg) :
    dlg.title = topt.getD "Run wizard?" ∧ dlg.buttons ≠ [] ∧
    (bopt = none → dlg.buttons =
      [{ text := "Yes", handler := .yesHandler },
       { text := "Back", handler := .backHandler }]) ∧
    (∀ bs, bopt = some bs → dlg.buttons = bs) := by
  cases bopt with
  | none =>
    have hred : RunWizardDialog.init topt none =
        .ok { title := topt.getD "Run wizard?",
              buttons := [{ text := "Yes", handler := .yesHandler },
                          { text := "Back", handler := .backHandler }] } := rfl
    rw [hred] at h
    injection h with h
    subst h
    exact ⟨rfl, by simp, fun _ => rfl, fun bs hbs => Option.noConfusion hbs⟩
  | some bs =>
    cases bs with
    | nil => simp [RunWizardDialog.init] at h
    | cons b rest =>
      have hred : RunWizardDialog.init topt (some (b :: rest)) =
          .ok { title := topt.getD "Run wizard?", buttons := b :: rest } := rfl
      rw [hred] at h
      injection h with h
      subst h
      exact ⟨rfl, by simp, fun hc => Option.noConfusion hc,
        fun bs hbs => Option.some.inj hbs⟩

/-- Characterization of a successful `from_done_section_definition`:
the title comes from the `description` key when present, the buttons are
never empty, absent `options` yields the default pair, and present
`options` yields exactly the buttons the options loop builds. -/
lemma from_done_ok_spec (d : Option SectionDef) (dlg : RunWizardDialog)
    (h : from_done_section_definition d = .ok dlg) :
    dlg.title = ((d.bind SectionDef.description).getD "Run wizard?") ∧
    dlg.buttons ≠ [] ∧
    ((d.bind SectionDef.options) = none → dlg.buttons =
      [{ text := "Yes", handler := .yesHandler },
       { text := "Back", handler := .backHandler }]) ∧
    (∀ opts, (d.bind SectionDef.options) = some opts →
      buildButtons opts = .ok dlg.buttons) := by
  cases d with
  | none =>
    have hspec := init_ok_spec none none dlg h
    exact ⟨hspec.1, hspec.2.1, fun _ => hspec.2.2.1 rfl,
      fun opts hopts => Option.noConfusion hopts⟩
  | some dd =>
    have hbind_desc : (some dd).bind SectionDef.description = dd.description := rfl
    have hbind_opts : (some dd).bind SectionDef.options = dd.options := rfl
    by_cases htr : dd.isTruthy = true
    · cases hop : dd.options with
      | none =>
        have heq : from_done_section_definition (some dd) =
            RunWizardDialog.init dd.description none := by
          simp only [from_done_section_definition]
          rw [if_pos htr, hop]
        rw [heq] at h
        have hspec := init_ok_spec dd.description none dlg h
        refine ⟨hspec.1, hspec.2.1, fun _ => hspec.2.2.1 rfl, fun opts hopts => ?_⟩
        rw [hbind_opts, hop] at hopts
        exact Option.noConfusion hopts
      | some opts =>
        have heq : from_done_section_definition (some dd) =
            (match buildButtons opts with
             | Except.error e => Except.error (DialogError.buttonError e)
             | Except.ok bs => RunWizardDialog.init dd.description (some bs)) := by
          simp only [from_done_section_definition]
          rw [if_pos htr, hop]
        rw [heq] at h
        cases hbs : buildButtons opts with
        | error e =>
          rw [hbs] at h
          exact Except.noConfusion h
        | ok bs =>
          rw [hbs] at h
          have hspec := init_ok_spec dd.description (some bs) dlg h
          have hbtns : dlg.buttons = bs := hspec.2.2.2 bs rfl
          refine ⟨hspec.1, hspec.2.1, fun hc => ?_, fun opts' hopts' => ?_⟩
          · rw [hbind_opts, hop] at hc
            exact Option.noConfusion hc
          · rw [hbind_opts, hop] at hopts'
            have hoo : opts' = opts := (Option.some.inj hopts').symm
            rw [hoo, hbtns]
            exact hbs
    · have hdesc : dd.description = none := by
        cases hdd : dd.description with
        | none => rfl
        | some v => exact absurd (by simp [SectionDef.isTruthy, hdd]) htr
      have hopts0 : dd.options = none := by
        cases hdd : dd.options with
        | none => rfl
        | some v => exact absurd (by simp [SectionDef.isTruthy, hdd]) htr
      simp only [from_done_section_definition] at h
      rw [if_neg htr] at h
      have hspec := init_ok_spec none none dlg h
      refine ⟨by simpa [hdesc] using hspec.1, hspec.2.1,
        fun _ => hspec.2.2.1 rfl, fun opts hopts => ?_⟩
      simp [hopts0] at hopts

/-- A successful options loop yields one button per entry, in order: the
result has the same length as the options list and the button at every
index is the one built from the options entry at that index. -/
lemma buildButtons_ok_spec :
    ∀ (opts : List OptionEntry) (bs : List Button),
      buildButtons opts = .ok bs →
      bs.length = opts.length ∧
      ∀ (i : Nat) (hi : i < opts.length) (hb : i < bs.length),
        optionToButton (opts.get ⟨i, hi⟩) = .ok (bs.get ⟨i, hb⟩) := by
  intro opts
  induction opts with
  | nil =>
    intro bs h
    simp only [buildButtons] at h
    injection h with h
    subst h
    exact ⟨rfl, fun i hi hb => absurd hi (by simp)⟩
  | cons o rest ih =>
    intro bs h
    simp only [buildButtons] at h
    cases hob : optionToButton o with
    | error e => rw [hob] at h; exact Except.noConfusion h
    | ok b =>
      rw [hob] at h
      cases hrest : buildButtons rest with
      | error e => rw [hrest] at h; exact Except.noConfusion h
      | ok bs' =>
        rw [hrest] at h
        injection h with h
        subst h
        have ⟨ihl, ihg⟩ := ih bs' hrest
        refine ⟨by simp [ihl], fun i hi hb => ?_⟩
        cases i with
        | zero => simpa using hob
        | succ j =>
          have hj : j < rest.length := by simpa using hi
          have hjb : j < bs'.length := by simpa using hb
          simpa using ihg j hj hjb

/-- C1: on every render frame the completion dialog container is visible
exactly when the traversal engine reports no remaining prompts, including
on the frame immediately after the back handler has run; the visibility
filter stores no dialog state, so any two dialogs have the same visibility
at the same frame. -/
theorem c1_dialog_visibility_tracks_traversal (dlg dlg' : RunWizardDialog)
    (app : AppState) :
    dlg.get_container.visibleAtFrame app =
      app.traverser.has_no_remaining_prompts ∧
    dlg.get_container.visibleAtFrame (Handler.backHandler.run app) =
      (Handler.backHandler.run app).traverser.has_no_remaining_prompts ∧
    dlg.get_container.visibleAtFrame app =
      dlg'.get_container.visibleAtFrame app :=
  ⟨rfl, rfl, rfl⟩

/-- C2: when the done section supplies a non-empty options sequence of
length N and dialog construction succeeds, the dialog has exactly N
buttons, and the button at every index is the one built from the options
entry at that index (same order). -/
theorem c2_one_action_per_option (dd : SectionDef) (opts : List OptionEntry)
    (dlg : RunWizardDialog) (hopts : dd.options = some opts) (hne : opts ≠ [])
    (h : from_done_section_definition (some dd) = .ok dlg) :
    dlg.buttons.length = opts.length ∧
    ∀ (i : Nat) (hi : i < opts.length) (hb : i < dlg.buttons.length),
      optionToButton (opts.get ⟨i, hi⟩) = .ok (dlg.buttons.get ⟨i, hb⟩) := by
  have hspec := from_done_ok_spec (some dd) dlg h
  have hbb : buildButtons opts = .ok dlg.buttons :=
    hspec.2.2.2 opts (by rw [show (some dd).bind SectionDef.options = dd.options from rfl, hopts])
  exact buildButtons_ok_spec opts dlg.buttons hbb

/-- C2 witness: a two-option done section yields a two-button dialog whose
buttons are built from the options in order. -/
theorem c2_one_action_per_option_witness :
    from_done_section_definition
        (some { options := some [OptionEntry.name "back", OptionEntry.name "yes"] }) =
      .ok { title := "Run wizard?",
            buttons := [{ text := "Back", handler := .backHandler },
                        { text := "Yes", handler := .yesHandler }] } ∧
    ({ title := "Run wizard?",
       buttons := [{ text := "Back", handler := .backHandler },
                   { text := "Yes", handler := .yesHandler }] } :
        RunWizardDialog).buttons.length =
      [OptionEntry.name "back", OptionEntry.name "yes"].length :=
  ⟨rfl,
    (c2_one_action_per_option
      { options := some [OptionEntry.name "back", OptionEntry.name "yes"] }
      [OptionEntry.name "back", OptionEntry.name "yes"]
      { title := "Run wizard?",
        buttons := [{ text := "Back", handler := .backHandler },
                    { text := "Yes", handler := .yesHandler }] }
      rfl (by decide) rfl).1⟩

/-- C3 counterexample: a done section whose `options` key is present but
holds the empty sequence does not produce a dialog at all; construction
fails with the empty-buttons index error, refuting the claim that such a
plan is among those for which construction succeeds. -/
theorem c3_counterexample_empty_options_fails :
    from_done_section_definition (some { options := some [] }) =
      .error DialogError.emptyButtons := rfl

/-- C3 (amended): whenever dialog construction succeeds the bound action
list is non-empty, and when the done section supplies no `options` key the
buttons are the default yes and back pair; a present-but-empty options
sequence makes construction fail rather than producing a zero-action
dialog. -/
theorem c3_constructed_dialog_has_actions (d : Option SectionDef)
    (dlg : RunWizardDialog) (h : from_done_section_definition d = .ok dlg) :
    dlg.buttons ≠ [] ∧
    (∀ dd, d = some dd → dd.options = none → dlg.buttons =
      [{ text := "Yes", handler := .yesHandler },
       { text := "Back", handler := .backHandler }]) ∧
    (d = none → dlg.buttons =
      [{ text := "Yes", handler := .yesHandler },
       { text := "Back", handler := .backHandler }]) := by
  have hspec := from_done_ok_spec d dlg h
  refine ⟨hspec.2.1, fun dd hd hopts => ?_, fun hd => ?_⟩
  · subst hd
    exact hspec.2.2.1 (by rw [show (some dd).bind SectionDef.options = dd.options from rfl, hopts])
  · subst hd
    exact hspec.2.2.1 rfl

/-- C3 witness: a done section with a description but no options key
builds successfully and carries the default non-empty button pair. -/
theorem c3_constructed_dialog_has_actions_witness :
    from_done_section_definition (some { description := some "Finish?" }) =
      .ok { title := "Finish?",
            buttons := [{ text := "Yes", handler := .yesHandler },
                        { text := "Back", handler := .backHandler }] } ∧
    ({ title := "Finish?",
       buttons := [{ text := "Yes", handler := .yesHandler },
                   { text := "Back", handler := .backHandler }] } :
        RunWizardDialog).buttons ≠ [] :=
  ⟨rfl,
    (c3_constructed_dialog_has_actions (some { description := some "Finish?" })
      { title := "Finish?",
        buttons := [{ text := "Yes", handler := .yesHandler },
                    { text := "Back", handler := .backHandler }] } rfl).1⟩

/-- C4: among the dialog buttons, Right from the last position and Left
from the first position leave focus unchanged, Tab from the last position
wraps to the first, BackTab from the first position wraps to the last, and
with a single button Left and Right are always no-ops. -/
theorem c4_focus_navigation (buttons : List Button) (p : Nat)
    (hne : buttons ≠ []) (hp : p < buttons.length) :
    create_buttons_key_bindings buttons (buttons.length - 1) Key.right =
      buttons.length - 1 ∧
    create_buttons_key_bindings buttons 0 Key.left = 0 ∧
    create_buttons_key_bindings buttons (buttons.length - 1) Key.tab = 0 ∧
    create_buttons_key_bindings buttons 0 Key.backTab = buttons.length - 1 ∧
    (buttons.length = 1 →
      create_buttons_key_bindings buttons p Key.left = p ∧
      create_buttons_key_bindings buttons p Key.right = p) := by
  have hk : 0 < buttons.length := List.length_pos.mpr hne
  refine ⟨?_, ?_, ?_, ?_, ?_⟩
  · simp [create_buttons_key_bindings]
  · simp [create_buttons_key_bindings]
  · simp only [create_buttons_key_bindings, focus_next]
    rw [Nat.sub_add_cancel hk, Nat.mod_self]
  · simp [create_buttons_key_bindings, focus_previous]
  · intro h1
    have hp0 : p = 0 := by omega
    subst hp0
    constructor
    · simp [create_buttons_key_bindings]
    · simp [create_buttons_key_bindings, h1]

/-- C4 witness: with the default two buttons and focus on the first, the
boundary and wrap rules hold concretely. -/
theorem c4_focus_navigation_witness :
    ([{ text := "Yes", handler := Handler.yesHandler },
      { text := "Back", handler := Handler.backHandler }] : List Button) ≠ [] ∧
    0 < ([{ text := "Yes", handler := Handler.yesHandler },
          { text := "Back", handler := Handler.backHandler }] : List Button).length ∧
    create_buttons_key_bindings
        [{ text := "Yes", handler := Handler.yesHandler },
         { text := "Back", handler := Handler.backHandler }] 0 Key.backTab = 1 :=
  ⟨by decide, by decide,
    (c4_focus_navigation
      [{ text := "Yes", handler := Handler.yesHandler },
       { text := "Back", handler := Handler.backHandler }] 0
      (by decide) (by decide)).2.2.2.1⟩

/-- Action names whose `_create_{name}_button` lookup resolves no
attribute at all (any name other than yes, back and dialog) make the
button factory fail with the unknown-action error naming the offending
action. -/
lemma create_button_unregistered (n : String) (t : Option String)
    (h : registered_action n = false) (hd : n ≠ "dialog") :
    RunWizardDialogButtonFactory.create_button n t =
      .error (.unknownActionKind n) := by
  simp only [registered_action, Bool.or_eq_false_iff, beq_eq_false_iff_ne] at h
  simp [RunWizardDialogButtonFactory.create_button, h.1, h.2, hd]

/-- The name "dialog" resolves the `_create_dialog_button` helper and the
call fails with the type error, never with the unknown-action error. -/
lemma create_button_dialog (t : Option String) :
    RunWizardDialogButtonFactory.create_button "dialog" t =
      .error (.typeError "dialog") := rfl

/-- Registered action names always build a button. -/
lemma create_button_registered (n : String) (t : Option String)
    (h : registered_action n = true) :
    ∃ b, RunWizardDialogButtonFactory.create_button n t = .ok b := by
  simp only [registered_action, Bool.or_eq_true, beq_iff_eq] at h
  cases h with
  | inl h =>
    subst h
    refine ⟨RunWizardDialogButtonFactory.create_yes_button
      ((match t with
        | some s => if s = "" then none else some s
        | none => none).getD "Yes"), ?_⟩
    simp [RunWizardDialogButtonFactory.create_button]
  | inr h =>
    subst h
    refine ⟨RunWizardDialogButtonFactory.create_back_button
      ((match t with
        | some s => if s = "" then none else some s
        | none => none).getD "Back"), ?_⟩
    simp [RunWizardDialogButtonFactory.create_button]

/-- The options entry loop body fails exactly like the factory does on the
entry's action name. -/
lemma optionToButton_eq_create (o : OptionEntry) :
    ∃ t, optionToButton o =
      RunWizardDialogButtonFactory.create_button o.button_name t := by
  cases o with
  | name s => exact ⟨none, rfl⟩
  | obj n d => exact ⟨d, rfl⟩

/-- If some options entry names an action outside the registered yes and
back builders, the options loop fails with some factory error (either the
unknown-action error or, for the name "dialog", the type error). -/
lemma buildButtons_fails :
    ∀ (opts : List OptionEntry),
      (∃ o ∈ opts, registered_action o.button_name = false) →
      ∃ e, buildButtons opts = .error e := by
  intro opts
  induction opts with
  | nil => intro h; rcases h with ⟨o, ho, _⟩; cases ho
  | cons o rest ih =>
    intro h
    by_cases hr : registered_action o.button_name = true
    · rcases h with ⟨o', ho', hbad⟩
      rcases List.mem_cons.mp ho' with heq | hmem
      · subst heq; rw [hr] at hbad; cases hbad
      · rcases ih ⟨o', hmem, hbad⟩ with ⟨e, he⟩
        rcases optionToButton_eq_create o with ⟨t, hot⟩
        rcases create_button_registered o.button_name t hr with ⟨b, hb⟩
        refine ⟨e, ?_⟩
        simp only [buildButtons]
        rw [hot, hb, he]
    · have hr' : registered_action o.button_name = false := by
        cases hh : registered_action o.button_name with
        | false => rfl
        | true => exact absurd hh hr
      rcases optionToButton_eq_create o with ⟨t, hot⟩
      by_cases hd : o.button_name = "dialog"
      · refine ⟨.typeError "dialog", ?_⟩
        simp only [buildButtons]
        rw [hot, hd, create_button_dialog]
      · refine ⟨.unknownActionKind o.button_name, ?_⟩
        simp only [buildButtons]
        rw [hot, create_button_unregistered o.button_name t hr' hd]

/-- If some options entry names an unregistered action and no entry names
"dialog", the options loop fails with the unknown-action error for some
unregistered name. -/
lemma buildButtons_unknown :
    ∀ (opts : List OptionEntry),
      (∃ o ∈ opts, registered_action o.button_name = false) →
      (∀ o ∈ opts, o.button_name ≠ "dialog") →
      ∃ m, buildButtons opts = .error (.unknownActionKind m) ∧
        registered_action m = false := by
  intro opts
  induction opts with
  | nil => intro h _; rcases h with ⟨o, ho, _⟩; cases ho
  | cons o rest ih =>
    intro h hnd
    by_cases hr : registered_action o.button_name = true
    · rcases h with ⟨o', ho', hbad⟩
      rcases List.mem_cons.mp ho' with heq | hmem
      · subst heq; rw [hr] at hbad; cases hbad
      · rcases ih ⟨o', hmem, hbad⟩
            (fun o'' hm => hnd o'' (List.mem_cons_of_mem o hm)) with ⟨m, hm, hmbad⟩
        rcases optionToButton_eq_create o with ⟨t, hot⟩
        rcases create_button_registered o.button_name t hr with ⟨b, hb⟩
        refine ⟨m, ?_, hmbad⟩
        simp only [buildButtons]
        rw [hot, hb, hm]
    · have hr' : registered_action o.button_name = false := by
        cases hh : registered_action o.button_name with
        | false => rfl
        | true => exact absurd hh hr
      rcases optionToButton_eq_create o with ⟨t, hot⟩
      refine ⟨o.button_name, ?_, hr'⟩
      simp only [buildButtons]
      rw [hot, create_button_unregistered o.button_name t hr'
        (hnd o (List.mem_cons_self o rest))]

/-- C5 counterexample: the options entry naming "dialog" names an action
with no registered builder, yet construction fails with the type error
from calling the resolved `_create_dialog_button` helper without its
mandatory arguments, not with the unknown-action error the claim
requires. -/
theorem c5_counterexample_dialog_type_error :
    from_done_section_definition
        (some { options := some [OptionEntry.name "dialog"] }) =
      .error (DialogError.buttonError (ButtonError.typeError "dialog")) ∧
    (ButtonError.typeError "dialog").isUnknownActionKind = false := ⟨rfl, rfl⟩

/-- C5 (amended): when the done section's options name an action outside
the registered yes and back builders, dialog construction fails before
first render with a button factory error, so no partially built dialog is
produced; when additionally no entry names "dialog" (whose helper lookup
succeeds but whose call raises the type error), the failure is the
unknown-action error for some unregistered name. -/
theorem c5_unknown_action_fails_construction (dd : SectionDef)
    (opts : List OptionEntry) (hopts : dd.options = some opts)
    (hbad : ∃ o ∈ opts, registered_action o.button_name = false) :
    (∃ e, from_done_section_definition (some dd) =
        .error (DialogError.buttonError e)) ∧
    ((∀ o ∈ opts, o.button_name ≠ "dialog") →
      ∃ m, from_done_section_definition (some dd) =
          .error (DialogError.buttonError (ButtonError.unknownActionKind m)) ∧
        registered_action m = false) := by
  have htr : dd.isTruthy = true := by
    simp [SectionDef.isTruthy, hopts]
  have heq : from_done_section_definition (some dd) =
      (match buildButtons opts with
       | Except.error e => Except.error (DialogError.buttonError e)
       | Except.ok bs => RunWizardDialog.init dd.description (some bs)) := by
    simp only [from_done_section_definition]
    rw [if_pos htr, hopts]
  constructor
  · rcases buildButtons_fails opts hbad with ⟨e, he⟩
    refine ⟨e, ?_⟩
    rw [heq, he]
  · intro hnd
    rcases buildButtons_unknown opts hbad hnd with ⟨m, hm, hmbad⟩
    refine ⟨m, ?_, hmbad⟩
    rw [heq, hm]

/-- C5 witness: the end-to-end scenario with the single options entry
naming the unregistered action, whose lookup resolves no attribute. -/
theorem c5_unknown_action_fails_construction_witness :
    ∃ m, from_done_section_definition
        (some { options := some [OptionEntry.name "unknown_action"] }) =
        .error (DialogError.buttonError (ButtonError.unknownActionKind m)) ∧
      registered_action m = false :=
  (c5_unknown_action_fails_construction
      { options := some [OptionEntry.name "unknown_action"] }
      [OptionEntry.name "unknown_action"] rfl
      ⟨OptionEntry.name "unknown_action", List.mem_singleton.mpr rfl, by decide⟩).2
    (by
      intro o ho
      rw [List.mem_singleton.mp ho]
      decide)

/-- C6: on successful construction, a missing `description` key (or an
absent or falsy done section) gives the dialog the default title
"Run wizard?", and a missing `options` key (or an absent or falsy done
section) gives exactly the yes and back buttons, labelled "Yes" and
"Back", in that order. -/
theorem c6_dialog_defaults (d : Option SectionDef) (dlg : RunWizardDialog)
    (h : from_done_section_definition d = .ok dlg) :
    ((d = none ∨ ∃ dd, d = some dd ∧ dd.description = none) →
      dlg.title = "Run wizard?") ∧
    ((d = none ∨ ∃ dd, d = some dd ∧ dd.options = none) →
      dlg.buttons = [{ text := "Yes", handler := .yesHandler },
                     { text := "Back", handler := .backHandler }]) := by
  have hspec := from_done_ok_spec d dlg h
  constructor
  · intro hcase
    rcases hcase with hd | ⟨dd, hd, hdesc⟩
    · subst hd; exact hspec.1
    · subst hd
      have : (some dd).bind SectionDef.description = none := by
        rw [show (some dd).bind SectionDef.description = dd.description from rfl, hdesc]
      rw [hspec.1, this]
      rfl
  · intro hcase
    rcases hcase with hd | ⟨dd, hd, hopts⟩
    · subst hd; exact hspec.2.2.1 rfl
    · subst hd
      exact hspec.2.2.1
        (by rw [show (some dd).bind SectionDef.options = dd.options from rfl, hopts])

/-- C6 witness: the absent done section definition yields the default
title and the default labelled button pair. -/
theorem c6_dialog_defaults_witness :
    from_done_section_definition none =
      .ok { title := "Run wizard?",
            buttons := [{ text := "Yes", handler := .yesHandler },
                        { text := "Back", handler := .backHandler }] } ∧
    ({ title := "Run wizard?",
       buttons := [{ text := "Yes", handler := .yesHandler },
                   { text := "Back", handler := .backHandler }] } :
        RunWizardDialog).title = "Run wizard?" :=
  ⟨rfl,
    (c6_dialog_defaults none
      { title := "Run wizard?",
        buttons := [{ text := "Yes", handler := .yesHandler },
                    { text := "Back", handler := .backHandler }] } rfl).1
      (Or.inl rfl)⟩

/-- C7 counterexample: an options entry supplying the empty string as its
`description` does not get the empty string as its label; the truthiness
test on the text drops it and the built-in label "Yes" is used instead,
refuting the claim for the empty-string description. -/
theorem c7_counterexample_empty_description :
    from_done_section_definition
        (some { options := some [OptionEntry.obj "yes" (some "")] }) =
      .ok { title := "Run wizard?",
            buttons := [{ text := "Yes", handler := .yesHandler }] } ∧
    ("Yes" : String) ≠ "" := ⟨rfl, by decide⟩

/-- C7 (amended): for an options entry given as an object with a name and
a description, the constructed button is labelled with the description
whenever the description is a non-empty string; when the description is
absent or empty the built-in label is used ("Yes" for yes, "Back" for
back). -/
theorem c7_description_becomes_label (n : String) (desc : Option String)
    (b : Button) (h : optionToButton (OptionEntry.obj n desc) = .ok b) :
    (∀ s, desc = some s → s ≠ "" → b.text = s) ∧
    ((desc = none ∨ desc = some "") →
      (n = "yes" → b.text = "Yes") ∧ (n = "back" → b.text = "Back")) := by
  simp only [optionToButton] at h
  by_cases hy : n = "yes"
  · subst hy
    cases desc with
    | none =>
      have hred : RunWizardDialogButtonFactory.create_button "yes" none =
          .ok { text := "Yes", handler := .yesHandler } := rfl
      rw [hred] at h
      have hb := (Except.ok.inj h).symm
      subst hb
      exact ⟨fun s hs => Option.noConfusion hs,
        fun _ => ⟨fun _ => rfl, fun hc => absurd hc (by decide)⟩⟩
    | some s =>
      by_cases hs0 : s = ""
      · subst hs0
        have hred : RunWizardDialogButtonFactory.create_button "yes" (some "") =
            .ok { text := "Yes", handler := .yesHandler } := rfl
        rw [hred] at h
        have hb := (Except.ok.inj h).symm
        subst hb
        exact ⟨fun s' hs' hne => absurd (Option.some.inj hs').symm hne,
          fun _ => ⟨fun _ => rfl, fun hc => absurd hc (by decide)⟩⟩
      · have hred : RunWizardDialogButtonFactory.create_button "yes" (some s) =
            .ok { text := s, handler := .yesHandler } := by
          simp [RunWizardDialogButtonFactory.create_button,
            RunWizardDialogButtonFactory.create_yes_button, hs0]
        rw [hred] at h
        have hb := (Except.ok.inj h).symm
        subst hb
        refine ⟨fun s' hs' hne => ?_, fun hcase => ?_⟩
        · rw [← Option.some.inj hs']
        · rcases hcase with hc | hc
          · exact Option.noConfusion hc
          · exact absurd (Option.some.inj hc) hs0
  · by_cases hbk : n = "back"
    · subst hbk
      cases desc with
      | none =>
        have hred : RunWizardDialogButtonFactory.create_button "back" none =
            .ok { text := "Back", handler := .backHandler } := rfl
        rw [hred] at h
        have hb := (Except.ok.inj h).symm
        subst hb
        exact ⟨fun s hs => Option.noConfusion hs,
          fun _ => ⟨fun hc => absurd hc (by decide), fun _ => rfl⟩⟩
      | some s =>
        by_cases hs0 : s = ""
        · subst hs0
          have hred : RunWizardDialogButtonFactory.create_button "back" (some "") =
              .ok { text := "Back", handler := .backHandler } := rfl
          rw [hred] at h
          have hb := (Except.ok.inj h).symm
          subst hb
          exact ⟨fun s' hs' hne => absurd (Option.some.inj hs').symm hne,
            fun _ => ⟨fun hc => absurd hc (by decide), fun _ => rfl⟩⟩
        · have hred : RunWizardDialogButtonFactory.create_button "back" (some s) =
              .ok { text := s, handler := .backHandler } := by
            simp [RunWizardDialogButtonFactory.create_button,
              RunWizardDialogButtonFactory.create_back_button, hs0]
          rw [hred] at h
          have hb := (Except.ok.inj h).symm
          subst hb
          refine ⟨fun s' hs' hne => ?_, fun hcase => ?_⟩
          · rw [← Option.some.inj hs']
          · rcases hcase with hc | hc
            · exact Option.noConfusion hc
            · exact absurd (Option.some.inj hc) hs0
    · by_cases hdg : n = "dialog"
      · subst hdg
        rw [create_button_dialog] at h
        exact Except.noConfusion h
      · have hred : RunWizardDialogButtonFactory.create_button n desc =
            .error (.unknownActionKind n) := by
          simp [RunWizardDialogButtonFactory.create_button, hy, hbk, hdg]
        rw [hred] at h
        exact Except.noConfusion h

/-- C7 witness: the end-to-end scenario entry, a back option described as
"Go back", is labelled "Go back". -/
theorem c7_description_becomes_label_witness :
    optionToButton (OptionEntry.obj "back" (some "Go back")) =
      .ok { text := "Go back", handler := .backHandler } ∧
    ({ text := "Go back", handler := .backHandler } : Button).text = "Go back" :=
  ⟨rfl,
    (c7_description_becomes_label "back" (some "Go back")
        { text := "Go back", handler := .backHandler } rfl).1
      "Go back" rfl (by decide)⟩

/-- C8 counterexample: a done section definition that has a `description`
but lacks `shortname` is not passed through with only the short label
defaulted; the tab receives the replacement one-key definition and the
original `description` field is dropped. -/
theorem c8_counterexample_fields_dropped :
    create_done_section_tab { description := some "All done" } =
      { name := DONE_SECTION_NAME,
        definition := { shortname := some "Done" } } ∧
    (create_done_section_tab
        { description := some "All done" }).definition.description ≠
      some "All done" := by
  constructor
  · rfl
  · intro hc
    cases hc

/-- C8 (amended): the done section tab keeps the whole section definition
only when the definition is truthy and has a `shortname` key; when the
definition is falsy or lacks `shortname`, the entire definition is
replaced by the one-key dict mapping `shortname` to "Done", dropping any
other fields. -/
theorem c8_done_tab_definition (d : SectionDef) :
    (create_done_section_tab d).name = DONE_SECTION_NAME ∧
    (d.isTruthy = true → d.shortname.isSome = true →
      (create_done_section_tab d).definition = d) ∧
    (d.isTruthy = false ∨ d.shortname = none →
      (create_done_section_tab d).definition = { shortname := some "Done" }) := by
  refine ⟨?_, fun htr hshort => ?_, fun hcase => ?_⟩
  · unfold create_done_section_tab
    split <;> rfl
  · rcases Option.isSome_iff_exists.mp hshort with ⟨v, hv⟩
    unfold create_done_section_tab
    rw [if_neg (by simp [htr, hv])]
  · unfold create_done_section_tab
    rcases hcase with hc | hc
    · rw [if_pos (by simp [hc])]
    · rw [if_pos (by simp [hc])]

/-- C8 witness: a truthy definition carrying a shortname is passed to the
tab unchanged. -/
theorem c8_done_tab_definition_witness :
    (create_done_section_tab
        { description := some "x", shortname := some "S" }).definition =
      { description := some "x", shortname := some "S" } :=
  (c8_done_tab_definition
      { description := some "x", shortname := some "S" }).2.1
    (by decide) (by decide)

/-- C9 counterexample: with the host details title set to the empty
string, the details panel resolves "Details panel" (the `or` fallback
fires on the falsy string) while the toolbar help text resolves the empty
string (its `getattr` default fires only when the attribute is unset), so
the two resolutions are not extensionally equal. -/
theorem c9_counterexample_empty_title :
    WizardDetailsPanel.get_title
        { traverser := { num_prompts := 0, current_prompt := 0 },
          details_title := some "", exit_result := none } = "Details panel" ∧
    DetailPanelToolbarView.help_title
        { traverser := { num_prompts := 0, current_prompt := 0 },
          details_title := some "", exit_result := none } = "" ∧
    ("Details panel" : String) ≠ "" := ⟨rfl, rfl, by decide⟩

/-- C9 (amended): the panel title and the toolbar hint title agree on
every application state whose details title is unset or set to a non-empty
string, both falling back to "Details panel" when it is unset; they
differ only when the title is set to the empty string. -/
theorem c9_titles_agree (app : AppState)
    (h : ∀ s, app.details_title = some s → s ≠ "") :
    WizardDetailsPanel.get_title app = DetailPanelToolbarView.help_title app ∧
    (app.details_title = none →
      WizardDetailsPanel.get_title app = "Details panel") := by
  cases htitle : app.details_title with
  | none =>
    constructor
    · simp [WizardDetailsPanel.get_title, DetailPanelToolbarView.help_title, htitle]
    · intro _
      simp [WizardDetailsPanel.get_title, htitle]
  | some s =>
    have hs := h s htitle
    constructor
    · simp [WizardDetailsPanel.get_title, DetailPanelToolbarView.help_title,
        htitle, hs]
    · intro hc
      exact Option.noConfusion hc

/-- C9 witness: with the details title set to a non-empty string the two
resolutions agree concretely. -/
theorem c9_titles_agree_witness :
    WizardDetailsPanel.get_title
        { traverser := { num_prompts := 1, current_prompt := 0 },
          details_title := some "My details", exit_result := none } =
      DetailPanelToolbarView.help_title
        { traverser := { num_prompts := 1, current_prompt := 0 },
          details_title := some "My details", exit_result := none } :=
  (c9_titles_agree
      { traverser := { num_prompts := 1, current_prompt := 0 },
        details_title := some "My details", exit_result := none }
      (fun s hs => by
        have hss := Option.some.inj hs
        subst hss
        decide)).1

/-- The section loop of `_create_sections`, run from any accumulator pair,
appends exactly one tab and one body per plan entry, in plan order. -/
lemma create_sections_foldl (dlg : RunWizardDialog) :
    ∀ (plan : List (String × SectionDef)) (t : List TabItem)
      (b : List BodyItem),
      plan.foldl (create_sections_step dlg) (t, b) =
        (t ++ plan.map tabOf, b ++ plan.map (bodyOf dlg)) := by
  intro plan
  induction plan with
  | nil => intro t b; simp
  | cons s rest ih =>
    intro t b
    have hstep : create_sections_step dlg (t, b) s =
        (t ++ [tabOf s], b ++ [bodyOf dlg s]) := by
      by_cases hs : s.1 = DONE_SECTION_NAME
      · simp [create_sections_step, tabOf, bodyOf, hs]
      · simp [create_sections_step, tabOf, bodyOf, hs]
    rw [List.foldl_cons, hstep, ih]
    simp

/-- C10: the compiled tab column is exactly one section tab per plan entry
in plan order followed by the single trailing spacer (so S entries give
S + 1 children), and the body column is exactly the S section bodies in
plan order (the done entry contributing the dialog) followed by the
details panel and then the hint toolbar. -/
theorem c10_columns_shape (plan : List (String × SectionDef))
    (dlg : RunWizardDialog) :
    (create_sections plan dlg).1 = plan.map tabOf ++ [TabItem.spacer] ∧
    (create_sections plan dlg).2 =
      plan.map (bodyOf dlg) ++ [BodyItem.detailsPanel, BodyItem.detailToolbar] ∧
    (create_sections plan dlg).1.length = plan.length + 1 ∧
    (create_sections plan dlg).2.length = plan.length + 2 := by
  have hfold := create_sections_foldl dlg plan [] []
  unfold create_sections
  rw [hfold]
  refine ⟨by simp, by simp, by simp, by simp⟩
